import Mathlib

/-!
Verification development for the AQUALYTICS MVP swim-results backend.

This file gives a shallow embedding, in Lean 4, of the result-ingestion
workflow of the FastAPI service (`services/api/app`): the pydantic request
schemas (`schemas/resultado.py`), the age-band category computation
(`utils/categoria_utils.py`), the domain validation pipeline and the
create/toggle endpoints (`api/v1/endpoints/resultados.py`), and the RBAC
user model (`models/user.py`, `api/deps.py`).

Python integers are arbitrary precision and are modelled by `Int`/`Nat`;
the `Decimal` fields (streamline distance `flecha_m` and the derived
metric fields) carry exact decimal values and are modelled by `ℚ`, over
which Python's `Decimal` arithmetic on these values is exact.  The
database visible to one request is modelled as explicit lists of rows;
the SQLAlchemy session is modelled by returning the committed store
together with the HTTP outcome: pending inserts become visible only at
the single `commit()` call, and every exception path calls `rollback()`,
returning the store unchanged.  Storage failures after the inserts begin
(flush/commit errors) are modelled by an explicit fault-injection
argument.
-/

namespace Aqualytics

/-- A calendar date as Python's `datetime.date`: a year, month and day.
Comparisons used by the code are lexicographic on (month, day). -/
structure Fecha where
  year : Int
  month : Nat
  day : Nat
deriving DecidableEq, Repr

/-- Lexicographic strict comparison of Python tuples `(month, day) < (month, day)`. -/
def mdLt (a b : Nat × Nat) : Bool :=
  Nat.blt a.1 b.1 || (a.1 == b.1 && Nat.blt a.2 b.2)

/-- Embeds `calcular_categoria_por_edad` (categoria_utils.py lines 101-118):
age band from an age in years. -/
def calcular_categoria_por_edad (edad : Int) : String :=
  if edad ≤ 12 then "11-12"
  else if edad ≤ 14 then "13-14"
  else if edad ≤ 16 then "15-16"
  else "17+"

/-- Embeds `calcular_categoria_en_fecha` (categoria_utils.py lines 121-137):
age at the competition date (years difference, minus one when the
reference (month, day) precedes the birth (month, day)), then the band. -/
def calcular_categoria_en_fecha (fecha_nacimiento fecha_competencia : Fecha) : String :=
  let edad : Int := fecha_competencia.year - fecha_nacimiento.year -
    (if mdLt (fecha_competencia.month, fecha_competencia.day)
        (fecha_nacimiento.month, fecha_nacimiento.day) then 1 else 0)
  calcular_categoria_por_edad edad

/-- Embeds `SegmentoCreate` (schemas/resultado.py lines 22-80): one submitted segment.
`flecha_m` is a `Decimal` with one decimal place, modelled exactly in `ℚ`. -/
structure SegmentoCreate where
  indice : Nat
  estilo_segmento : String
  distancia_m : Nat
  tiempo_cs : Int
  brazadas : Nat
  flecha_m : ℚ
deriving DecidableEq, Repr

/-- Embeds `ResultadoCreate` (schemas/resultado.py lines 112-190): the create-resultado
request body. -/
structure ResultadoCreate where
  nadador_id : Nat
  competencia_id : Nat
  prueba_id : Nat
  fase : String
  fecha_registro : Fecha
  tiempo_global_cs : Int
  tiempo_15m_cs : Option Int
  segmentos : List SegmentoCreate
deriving DecidableEq, Repr

/-- The pydantic field constraints on one segment (schemas/resultado.py
lines 25-75): `indice ≥ 1`, `distancia_m ∈ (25, 50)`, `tiempo_cs > 0`,
`brazadas ≥ 0` (a `Nat` here), `flecha_m ≥ 0`. -/
def segmentoSchemaValid (s : SegmentoCreate) : Bool :=
  1 ≤ s.indice && (s.distancia_m == 25 || s.distancia_m == 50)
    && decide (0 < s.tiempo_cs) && decide (0 ≤ s.flecha_m)

/-- The `enumerate(segmentos_ordenados, 1)` loop of `validate_segmentos`
(schemas/resultado.py lines 177-180): the k-th element of the sorted list
must carry index k. -/
def indicesConsecutivosDesde : Nat → List SegmentoCreate → Bool
  | _, [] => true
  | i, s :: rest => s.indice == i && indicesConsecutivosDesde (i + 1) rest

/-- Embeds `ResultadoCreate.validate_segmentos` (schemas/resultado.py lines 167-182):
sort the segments by `indice` (Python's stable `sorted`; only the index
sequence of the sorted list is inspected, so any sort by index agrees)
and require the k-th smallest index to equal k, starting at 1; an empty
list is rejected. -/
def validateSegmentosSchema (v : List SegmentoCreate) : Bool :=
  !v.isEmpty &&
    indicesConsecutivosDesde 1 (List.insertionSort (fun a b => a.indice ≤ b.indice) v)

/-- Pydantic validation of the whole `ResultadoCreate` body: field
constraints (`tiempo_global_cs > 0`, `tiempo_15m_cs > 0` when present,
`min_items=1`) plus `validate_segmentos`. -/
def resultadoCreateSchemaValid (d : ResultadoCreate) : Bool :=
  decide (0 < d.tiempo_global_cs)
    && (match d.tiempo_15m_cs with
        | some t => decide (0 < t)
        | none => true)
    && d.segmentos.all segmentoSchemaValid
    && validateSegmentosSchema d.segmentos

/-- Embeds `Usuario` (models/user.py lines 14-66): the locally stored user row
(the fields the resultados endpoints read). -/
structure Usuario where
  id : Nat
  email : String
  rol : String
  equipo_id : Nat
deriving DecidableEq, Repr

/-- Embeds `Usuario.is_trainer` (models/user.py lines 58-66). -/
def Usuario.is_trainer (u : Usuario) : Bool :=
  u.rol == "entrenador"

/-- Embeds `Usuario.permissions` (models/user.py lines 68-107) read through
`permissions.get(key, False)` as `create_permission_validator` does
(api/deps.py lines 252-278). -/
def Usuario.permisoConcedido (u : Usuario) (key : String) : Bool :=
  if u.is_trainer then
    ["crear_competencias", "editar_competencias", "eliminar_competencias",
     "crear_nadadores", "editar_nadadores", "eliminar_nadadores",
     "registrar_resultados", "editar_resultados", "eliminar_resultados",
     "ver_dashboard", "ver_analitica", "acceso_completo"].contains key
  else
    ["ver_dashboard", "ver_analitica"].contains key

/-- A `nadador` table row (the columns the resultados endpoints read). -/
structure Nadador where
  id : Nat
  equipo_id : Nat
  fecha_nacimiento : Fecha
deriving DecidableEq, Repr

/-- A `competencia` table row (the columns the resultados endpoints read;
`rango_fechas` is fetched but, per the TODO at resultados.py line 227,
never parsed, so it is omitted). -/
structure Competencia where
  id : Nat
  equipo_id : Nat
  curso : String
deriving DecidableEq, Repr

/-- A `prueba` catalog row (the columns the resultados endpoints read). -/
structure Prueba where
  id : Nat
  distancia : Nat
  curso : String
  estilo : String
deriving DecidableEq, Repr

/-- A `resultado` table row (models/resultado.py lines 38-117). -/
structure ResultadoRow where
  id : Nat
  nadador_id : Nat
  competencia_id : Nat
  prueba_id : Nat
  fase : String
  fecha_registro : Fecha
  tiempo_global_cs : Int
  tiempo_15m_cs : Option Int
  categoria_label : String
  estado_validacion : String
  desviacion_parciales_cs : Int
  capturado_por : Nat
deriving DecidableEq, Repr

/-- A `segmento` table row (models/resultado.py lines 136-239); the
PostgreSQL GENERATED columns are not written by the application layer and
are omitted. -/
structure SegmentoRow where
  id : Nat
  resultado_id : Nat
  indice : Nat
  estilo_segmento : String
  distancia_m : Nat
  tiempo_cs : Int
  brazadas : Nat
  flecha_m : ℚ
deriving DecidableEq, Repr

/-- The committed database state visible to one request. -/
structure DB where
  nadadores : List Nadador
  competencias : List Competencia
  pruebas : List Prueba
  resultados : List ResultadoRow
  segmentos : List SegmentoRow
deriving DecidableEq, Repr

/-- The distinct error outcomes of the resultados endpoints, one per
`HTTPException` site relevant here (resultados.py). -/
inductive ApiError where
  | nadadorNotFound
  | nadadorForbidden
  | competenciaNotFound
  | competenciaForbidden
  | pruebaNotFound
  | cursoMismatch
  | segmentCountMismatch
  | segmentoDistanciaInvalida
  | flechaExcedeDistancia
  | estiloImIncorrecto
  | tiempo15mNotAllowed
  | duplicado
  | resultadoNotFound
  | forbiddenRol
  | unprocessableBody
  | internalError
deriving DecidableEq, Repr

/-- The HTTP status code each error is raised with. -/
def ApiError.httpStatus : ApiError → Nat
  | .nadadorNotFound | .competenciaNotFound | .pruebaNotFound
  | .resultadoNotFound => 404
  | .nadadorForbidden | .competenciaForbidden | .forbiddenRol => 403
  | .cursoMismatch | .segmentCountMismatch | .segmentoDistanciaInvalida
  | .flechaExcedeDistancia | .estiloImIncorrecto | .tiempo15mNotAllowed => 400
  | .duplicado => 409
  | .unprocessableBody => 422
  | .internalError => 500

/-- Embeds `SELECT ... FROM nadador WHERE id = :nadador_id` + `fetchone()`. -/
def lookupNadador (db : DB) (nadador_id : Nat) : Option Nadador :=
  db.nadadores.find? (fun n => n.id == nadador_id)

/-- Embeds `SELECT ... FROM competencia WHERE id = :competencia_id` + `fetchone()`. -/
def lookupCompetencia (db : DB) (competencia_id : Nat) : Option Competencia :=
  db.competencias.find? (fun c => c.id == competencia_id)

/-- Embeds `SELECT ... FROM prueba WHERE id = :prueba_id` + `fetchone()`. -/
def lookupPrueba (db : DB) (prueba_id : Nat) : Option Prueba :=
  db.pruebas.find? (fun p => p.id == prueba_id)

/-- Embeds `longitud_segmento = 25 if curso_prueba == 'SC' else 50`
(resultados.py line 259). -/
def longitudSegmento (curso : String) : Nat :=
  if curso = "SC" then 25 else 50

/-- Embeds `num_segmentos_esperados = distancia_prueba // longitud_segmento`
(resultados.py line 260); Python floor division on non-negative operands
is `Nat` division. -/
def numSegmentosEsperados (distancia : Nat) (curso : String) : Nat :=
  distancia / longitudSegmento curso

/-- Embeds `estilos_im = ['Mariposa', 'Dorso', 'Pecho', 'Libre']`
(resultados.py line 286). -/
def estilosIM : List String :=
  ["Mariposa", "Dorso", "Pecho", "Libre"]

/-- One iteration of the per-segment loop (resultados.py lines 269-293),
at 1-based position `i`: segment distance must equal the course segment
length, the streamline may not exceed the segment distance, and for a
`Combinado` test the style must be `estilos_im[(i - 1) % 4]`. -/
def validarSegmentoEn (longitud : Nat) (estilo_prueba : String) (i : Nat)
    (s : SegmentoCreate) : Except ApiError Unit :=
  if s.distancia_m ≠ longitud then .error .segmentoDistanciaInvalida
  else if (s.distancia_m : ℚ) < s.flecha_m then .error .flechaExcedeDistancia
  else if estilo_prueba = "Combinado" then
    if s.estilo_segmento ≠ estilosIM.getD ((i - 1) % 4) "" then
      .error .estiloImIncorrecto
    else .ok ()
  else .ok ()

/-- The `for i, segmento in enumerate(data.segmentos, 1)` loop
(resultados.py lines 269-293), failing fast at the first bad segment. -/
def validarSegmentosDesde (longitud : Nat) (estilo_prueba : String) :
    Nat → List SegmentoCreate → Except ApiError Unit
  | _, [] => .ok ()
  | i, s :: rest =>
    match validarSegmentoEn longitud estilo_prueba i s with
    | .error e => .error e
    | .ok () => validarSegmentosDesde longitud estilo_prueba (i + 1) rest

/-- Steps 1-3 of `_validar_datos_resultado` (resultados.py lines 183-256):
the swimmer exists and is on the caller team, the competition exists and
is on the caller team, the test exists and its course matches the
competition course. -/
def validarReferencias (db : DB) (data : ResultadoCreate) (equipo_id : Nat) :
    Except ApiError (Competencia × Prueba) :=
  match lookupNadador db data.nadador_id with
  | none => .error .nadadorNotFound
  | some n =>
    if n.equipo_id ≠ equipo_id then .error .nadadorForbidden
    else
      match lookupCompetencia db data.competencia_id with
      | none => .error .competenciaNotFound
      | some c =>
        if c.equipo_id ≠ equipo_id then .error .competenciaForbidden
        else
          match lookupPrueba db data.prueba_id with
          | none => .error .pruebaNotFound
          | some p =>
            if p.curso ≠ c.curso then .error .cursoMismatch
            else .ok (c, p)

/-- Steps 4-5 of `_validar_datos_resultado` (resultados.py lines 258-293):
the segment count must equal the expected count for the test, then each
segment is checked individually. -/
def validarSegmentacion (p : Prueba) (segs : List SegmentoCreate) :
    Except ApiError Unit :=
  if segs.length ≠ numSegmentosEsperados p.distancia p.curso then
    .error .segmentCountMismatch
  else validarSegmentosDesde (longitudSegmento p.curso) p.estilo 1 segs

/-- Step 6 of `_validar_datos_resultado` (resultados.py lines 295-300):
`tiempo_15m_cs` is only allowed when the test distance is exactly 50. -/
def checkTiempo15m (data : ResultadoCreate) (distancia_prueba : Nat) :
    Except ApiError Unit :=
  if data.tiempo_15m_cs.isSome && distancia_prueba != 50 then
    .error .tiempo15mNotAllowed
  else .ok ()

/-- The uniqueness probe of step 7 (resultados.py lines 302-319):
a `resultado` row with the same (nadador, competencia, prueba, fase,
fecha_registro) tuple already exists. -/
def existeResultadoDuplicado (db : DB) (data : ResultadoCreate) : Bool :=
  db.resultados.any (fun r =>
    r.nadador_id == data.nadador_id && r.competencia_id == data.competencia_id
      && r.prueba_id == data.prueba_id && r.fase == data.fase
      && r.fecha_registro == data.fecha_registro)

/-- Steps 1-6 of `_validar_datos_resultado`, before the uniqueness check;
on success returns `(distancia_prueba, fecha_competencia)` where
`fecha_competencia` is `data.fecha_registro` (resultados.py line 229). -/
def validarSinUnicidad (db : DB) (data : ResultadoCreate) (equipo_id : Nat) :
    Except ApiError (Nat × Fecha) :=
  match validarReferencias db data equipo_id with
  | .error e => .error e
  | .ok (_, p) =>
    match validarSegmentacion p data.segmentos with
    | .error e => .error e
    | .ok () =>
      match checkTiempo15m data p.distancia with
      | .error e => .error e
      | .ok () => .ok (p.distancia, data.fecha_registro)

/-- Embeds `_validar_datos_resultado` (resultados.py lines 163-336): steps 1-6,
then the uniqueness check raising 409 conflict (lines 321-325). -/
def validarDatosResultado (db : DB) (data : ResultadoCreate) (equipo_id : Nat) :
    Except ApiError (Nat × Fecha) :=
  match validarSinUnicidad db data equipo_id with
  | .error e => .error e
  | .ok res =>
    if existeResultadoDuplicado db data then .error .duplicado
    else .ok res

/-- Embeds `ResumenGlobal` (schemas/resultado.py lines 222-267): derived global
metrics of a result. -/
structure ResumenGlobal where
  suma_parciales_cs : Int
  desviacion_cs : Int
  desviacion_absoluta_cs : Int
  requiere_revision : Bool
  brazadas_totales : Nat
  flecha_total_m : ℚ
  distancia_sin_flecha_total_m : ℚ
  distancia_total_m : Nat
  velocidad_promedio_mps : ℚ
  distancia_por_brazada_global_m : Option ℚ
deriving DecidableEq, Repr

/-- Embeds `_calcular_resumen_global` (resultados.py lines 111-160).  The code
receives transient `Segmento` objects whose fields are copied verbatim
from the submitted `SegmentoCreate` values (lines 387-398), so the
computation is taken directly over the submission.  Decimal arithmetic on
these exact values is modelled in `ℚ` (a division by zero cannot occur:
the schema forces `tiempo_global_cs > 0`, and the `brazadas_totales = 0`
case is guarded in the code itself). -/
def calcularResumenGlobal (segmentos : List SegmentoCreate)
    (tiempo_global_cs : Int) (distancia_prueba : Nat) : ResumenGlobal :=
  let suma_parciales_cs : Int := (segmentos.map (fun s => s.tiempo_cs)).sum
  let brazadas_totales : Nat := (segmentos.map (fun s => s.brazadas)).sum
  let flecha_total_m : ℚ := (segmentos.map (fun s => s.flecha_m)).sum
  let distancia_sin_flecha_total_m : ℚ :=
    (segmentos.map (fun s => max ((s.distancia_m : ℚ) - s.flecha_m) 0)).sum
  let desviacion_cs : Int := suma_parciales_cs - tiempo_global_cs
  let desviacion_absoluta_cs : Int := |desviacion_cs|
  let requiere_revision : Bool := decide (40 < desviacion_absoluta_cs)
  let velocidad_promedio_mps : ℚ :=
    (distancia_prueba : ℚ) / ((tiempo_global_cs : ℚ) / 100)
  let distancia_por_brazada_global_m : Option ℚ :=
    if 0 < brazadas_totales then
      some (distancia_sin_flecha_total_m / (brazadas_totales : ℚ))
    else none
  { suma_parciales_cs, desviacion_cs, desviacion_absoluta_cs,
    requiere_revision, brazadas_totales, flecha_total_m,
    distancia_sin_flecha_total_m, distancia_total_m := distancia_prueba,
    velocidad_promedio_mps, distancia_por_brazada_global_m }

/-- Embeds `_calcular_categoria_resultado` (resultados.py lines 62-108): looks up
the swimmer's birth date and applies `calcular_categoria_en_fecha`.  Its
`except Exception` clause also catches the `HTTPException(404)` it raises
itself for a missing swimmer, so a missing swimmer surfaces as a 500. -/
def calcularCategoriaResultado (db : DB) (nadador_id : Nat)
    (fecha_competencia : Fecha) : Except ApiError String :=
  match lookupNadador db nadador_id with
  | none => .error .internalError
  | some n => .ok (calcular_categoria_en_fecha n.fecha_nacimiento fecha_competencia)

/-- Fault injection for the storage layer inside the create handler:
whether the database raises at the first `flush()` (the resultado
insert), the second `flush()` (the segmento inserts), the `commit()`
itself, after the commit (at `db.refresh(resultado)` or while building
the response, resultados.py lines 451-461 — still inside the same `try`,
so the failure is caught at lines 466-475 after the transaction has
already committed), or not at all. -/
inductive StorageFault where
  | noFault
  | onFlushResultado
  | onFlushSegmentos
  | onCommit
  | onRefresh
deriving DecidableEq, Repr

/-- The `{resultado, segmentos[], resumen_global}` body of a 201 response
(`ResultadoCompletoResponse`, schemas/resultado.py lines 270-287). -/
structure CreateRespuesta where
  resultado : ResultadoRow
  segmentos : List SegmentoRow
  resumen_global : ResumenGlobal
deriving DecidableEq, Repr

/-- Surrogate for the `resultado.id` sequence: the id `flush()` assigns to
the new row. -/
def nextResultadoId (db : DB) : Nat :=
  db.resultados.length + 1

/-- Embeds the `create_resultado` handler body (resultados.py lines
350-475), after its dependencies have run.  Validation raises before
anything is added to the session; the resultado row and its segmento
rows are added and flushed, then committed once.  The `except` clauses
call `rollback()`, so an exception raised before the `commit()` returns
the committed store unchanged — but `db.refresh(resultado)` and the
response construction (lines 451-461) run after the `commit()` inside
the same `try`, so an exception there (fault `onRefresh`) is also
answered with HTTP 500 while the rows stay committed: the rollback is a
no-op on an already-committed transaction.  Returns the committed store
after the request together with the HTTP outcome. -/
def createResultado (u : Usuario) (db : DB) (data : ResultadoCreate)
    (fault : StorageFault) : DB × Except ApiError CreateRespuesta :=
  match validarDatosResultado db data u.equipo_id with
  | .error e => (db, .error e)
  | .ok (distancia_prueba, fecha_competencia) =>
    match calcularCategoriaResultado db data.nadador_id fecha_competencia with
    | .error e => (db, .error e)
    | .ok categoria_label =>
      let resumen := calcularResumenGlobal data.segmentos data.tiempo_global_cs distancia_prueba
      let estado_validacion : String :=
        if resumen.requiere_revision then "revisar" else "valido"
      let rid := nextResultadoId db
      let row : ResultadoRow :=
        { id := rid, nadador_id := data.nadador_id,
          competencia_id := data.competencia_id, prueba_id := data.prueba_id,
          fase := data.fase, fecha_registro := data.fecha_registro,
          tiempo_global_cs := data.tiempo_global_cs,
          tiempo_15m_cs := data.tiempo_15m_cs, categoria_label,
          estado_validacion,
          desviacion_parciales_cs := resumen.desviacion_cs,
          capturado_por := u.id }
      if fault = .onFlushResultado then (db, .error .internalError)
      else
        let segRows : List SegmentoRow :=
          data.segmentos.enum.map (fun js =>
            { id := db.segmentos.length + js.1 + 1, resultado_id := rid,
              indice := js.2.indice, estilo_segmento := js.2.estilo_segmento,
              distancia_m := js.2.distancia_m, tiempo_cs := js.2.tiempo_cs,
              brazadas := js.2.brazadas, flecha_m := js.2.flecha_m })
        if fault = .onFlushSegmentos then (db, .error .internalError)
        else if fault = .onCommit then (db, .error .internalError)
        else
          let dbNuevo : DB :=
            { db with resultados := db.resultados ++ [row],
                      segmentos := db.segmentos ++ segRows }
          if fault = .onRefresh then (dbNuevo, .error .internalError)
          else
            (dbNuevo,
             .ok { resultado := row, segmentos := segRows, resumen_global := resumen })

/-- Embeds `POST /resultados` as dispatched by FastAPI: the request body must
pass pydantic validation (else 422), the `CanCreateResultados` dependency
requires the `registrar_resultados` permission (api/deps.py lines
252-278, 289; else 403), then the handler runs. -/
def postResultados (u : Usuario) (db : DB) (data : ResultadoCreate)
    (fault : StorageFault) : DB × Except ApiError CreateRespuesta :=
  if ¬ resultadoCreateSchemaValid data then (db, .error .unprocessableBody)
  else if ¬ u.permisoConcedido "registrar_resultados" then (db, .error .forbiddenRol)
  else createResultado u db data fault

/-- The attributes the `Usuario` class (models/user.py lines 14-107)
defines on its instances: its mapped columns and its two properties.
Neither `Usuario`, `SQLModel`, nor pydantic's `BaseModel` defines an
attribute named `get` on model instances. -/
def usuarioAtributos : List String :=
  ["id", "auth_user_id", "email", "rol", "equipo_id",
   "created_at", "updated_at", "is_trainer", "permissions"]

/-- Python `hasattr` on a `Usuario` instance. -/
def usuarioTieneAtributo (name : String) : Bool :=
  usuarioAtributos.contains name

/-- The response body of a successful toggle (resultados.py lines 700-706). -/
structure ToggleRespuesta where
  resultado_id : Nat
  nuevo_estado : String
  estado_anterior : String
deriving DecidableEq, Repr

/-- Embeds `toggle_estado_revision`, `PATCH /resultados/(id)/revisar`
(resultados.py lines 645-714).  Its first statement evaluates
`current_user.get("role")`; `current_user` is a `Usuario` model instance
(api/deps.py line 298) and the `Usuario` class defines no attribute
`get`, so the attribute lookup raises `AttributeError` before the role
comparison ever happens, and FastAPI surfaces the uncaught exception as
an HTTP 500 with the row left untouched.  The branch below the attribute
lookup transcribes the rest of the handler (role gate, 404 lookup,
toggle, single commit); it is reachable only if the attribute existed. -/
def toggleEstadoRevision (u : Usuario) (db : DB) (resultado_id : Nat) :
    DB × Except ApiError ToggleRespuesta :=
  if usuarioTieneAtributo "get" then
    if u.rol ≠ "entrenador" then (db, .error .forbiddenRol)
    else
      match db.resultados.find? (fun r => r.id == resultado_id) with
      | none => (db, .error .resultadoNotFound)
      | some r =>
        let nuevo_estado : String :=
          if r.estado_validacion = "valido" then "revisar" else "valido"
        ({ db with resultados := db.resultados.map (fun x =>
              if x.id = resultado_id then { x with estado_validacion := nuevo_estado }
              else x) },
         .ok { resultado_id, nuevo_estado, estado_anterior := r.estado_validacion })
  else (db, .error .internalError)

/-! ### Specification-side definitions for the category claim

These two definitions transcribe the claim's own wording (age
formula and band table) and are compared against the source
functions. -/

/-- The claim's age formula: `age = r.year − b.year − (1 if
(r.month, r.day) < (b.month, b.day) else 0)`, with `<` read as the
lexicographic order on pairs. -/
def specEdadEn (b r : Fecha) : Int :=
  r.year - b.year -
    (if r.month < b.month ∨ (r.month = b.month ∧ r.day < b.day) then 1 else 0)

/-- The claim's band table: `≤12 → "11-12"`, `≤14 → "13-14"`,
`≤16 → "15-16"`, else `"17+"`. -/
def specBandaEdad (edad : Int) : String :=
  if edad ≤ 12 then "11-12"
  else if edad ≤ 14 then "13-14"
  else if edad ≤ 16 then "15-16"
  else "17+"

theorem mdLt_iff (a b : Nat × Nat) :
    mdLt a b = true ↔ a.1 < b.1 ∨ (a.1 = b.1 ∧ a.2 < b.2) := by
  simp [mdLt, Nat.blt_eq]

theorem banda_eq_spec (edad : Int) :
    calcular_categoria_por_edad edad = specBandaEdad edad := rfl

/-- C4: for every birth date and reference date, the computed
`categoria_label` equals the claim's band applied to the claim's
adjusted-age formula. -/
theorem calcular_categoria_en_fecha_eq_spec (b r : Fecha) :
    calcular_categoria_en_fecha b r = specBandaEdad (specEdadEn b r) := by
  unfold calcular_categoria_en_fecha specEdadEn
  rw [← banda_eq_spec]
  by_cases hq : r.month < b.month ∨ (r.month = b.month ∧ r.day < b.day)
  · rw [if_pos ((mdLt_iff _ _).mpr hq), if_pos hq]
  · rw [if_neg (fun h => hq ((mdLt_iff _ _).mp h)), if_neg hq]

/-- C5 (counterexample): for a swimmer born 2010-06-15 evaluated on
2024-06-15, the code computes age 14 and yields "13-14", not the
"15-16" stated by the claim. -/
theorem categoria_2024_06_15_refuta :
    calcular_categoria_en_fecha ⟨2010, 6, 15⟩ ⟨2024, 6, 15⟩ = "13-14" ∧
    calcular_categoria_en_fecha ⟨2010, 6, 15⟩ ⟨2024, 6, 15⟩ ≠ "15-16" := by
  constructor
  · rfl
  · decide

/-- C5 (amended): for a swimmer born 2010-06-15, the categoria
computation yields "13-14" on 2024-06-14 (age 13) and also "13-14" on
2024-06-15 (age 14, still inside the 13-14 band). -/
theorem categoria_borde_cumpleanos :
    calcular_categoria_en_fecha ⟨2010, 6, 15⟩ ⟨2024, 6, 14⟩ = "13-14" ∧
    calcular_categoria_en_fecha ⟨2010, 6, 15⟩ ⟨2024, 6, 15⟩ = "13-14" := by
  constructor <;> rfl

/-- C9: every `PATCH /resultados/(id)/revisar` request fails with HTTP
500 and leaves the database unchanged, whatever the caller's role: the
handler's first statement `current_user.get("role")` is an attribute
lookup that the `Usuario` model does not support, so the role gate, the
404 check and the toggle are all unreachable.  In particular an
entrenador can never toggle a row and a non-entrenador receives 500, not
403. -/
theorem toggle_estado_revision_siempre_500 (u : Usuario) (db : DB) (rid : Nat) :
    toggleEstadoRevision u db rid = (db, .error .internalError) ∧
    ApiError.internalError.httpStatus = 500 := by
  refine ⟨?_, rfl⟩
  have h : usuarioTieneAtributo "get" = false := by decide
  unfold toggleEstadoRevision
  rw [h]
  simp

/-- Concrete fixtures for witnesses: an entrenador, a store holding one
swimmer, one short-course competition and the 50 m Libre SC test, and a
well-formed submission with two 25 m segments summing to 3040 cs against
a global time of 3000 cs (deviation exactly 40). -/
def usuarioW : Usuario := ⟨7, "coach", "entrenador", 1⟩

def dbW : DB :=
  ⟨[⟨1, 1, ⟨2010, 6, 15⟩⟩], [⟨1, 1, "SC"⟩], [⟨1, 50, "SC", "Libre"⟩], [], []⟩

def dataW : ResultadoCreate :=
  ⟨1, 1, 1, "Preliminar", ⟨2024, 6, 15⟩, 3000, none,
    [⟨1, "Libre", 25, 1500, 10, 5⟩, ⟨2, "Libre", 25, 1540, 11, 5⟩]⟩

/-- C6 (counterexample): the claim "any error at any point of the
workflow leaves zero resultado rows and zero segmento rows persisted" is
false on the code: a failure after the `commit()` — at
`db.refresh(resultado)` or while building the response (resultados.py
lines 451-461), caught by the same `except` clauses (lines 466-475) — is
answered with HTTP 500 although the resultado row and both segmento rows
are already committed, the rollback being a no-op by then.  Starting from
an empty store, the run errors yet persists one resultado row and two
segmento rows. -/
theorem create_resultado_error_tras_commit_refuta :
    dbW.resultados = [] ∧ dbW.segmentos = [] ∧
    (postResultados usuarioW dbW dataW StorageFault.onRefresh).2 =
      .error .internalError ∧
    (postResultados usuarioW dbW dataW StorageFault.onRefresh).1.resultados.length
      = 1 ∧
    (postResultados usuarioW dbW dataW StorageFault.onRefresh).1.segmentos.length
      = 2 := by
  refine ⟨rfl, rfl, ?_, ?_, ?_⟩ <;> rfl

/-- C6 (amended): every validation step runs before the first insert,
and any exception raised before the single `commit()` — a failed domain
validation, a missing swimmer at category time, or a storage failure at
either flush or at the commit itself — rolls the transaction back and
leaves the committed store unchanged.  An exception raised after the
commit (`db.refresh` / response construction) surfaces an error with the
resultado row and its complete set of segmento rows (one per submitted
segment) already committed.  Hence on any error the store holds either
zero new rows or the complete result/segment set — never a partial
one. -/
theorem create_resultado_atomico_o_completo (u : Usuario) (db : DB)
    (data : ResultadoCreate) (fault : StorageFault) (db' : DB) (e : ApiError)
    (h : postResultados u db data fault = (db', .error e)) :
    (fault ≠ StorageFault.onRefresh → db' = db) ∧
    (db' = db ∨ ∃ (row : ResultadoRow) (segRows : List SegmentoRow),
      db'.resultados = db.resultados ++ [row] ∧
      db'.segmentos = db.segmentos ++ segRows ∧
      segRows.length = data.segmentos.length) := by
  simp only [postResultados, createResultado] at h
  repeat' split at h
  all_goals injection h with hdb hok
  all_goals try (exact Except.noConfusion hok)
  all_goals subst hdb
  all_goals
    first
      | exact ⟨fun _ => rfl, Or.inl rfl⟩
      | exact ⟨fun hne => absurd (by assumption) hne,
          Or.inr ⟨_, _, rfl, rfl, by simp⟩⟩

/-- C6 (witness): two concrete error runs.  A commit failure rolls
everything back after both inserts, leaving the store unchanged; a
post-commit failure leaves the complete row-plus-segments set
persisted. -/
theorem create_resultado_atomico_o_completo_witness :
    (postResultados usuarioW dbW dataW StorageFault.onCommit).1 = dbW ∧
    ((postResultados usuarioW dbW dataW StorageFault.onRefresh).1 = dbW ∨
      ∃ (row : ResultadoRow) (segRows : List SegmentoRow),
        (postResultados usuarioW dbW dataW StorageFault.onRefresh).1.resultados =
          dbW.resultados ++ [row] ∧
        (postResultados usuarioW dbW dataW StorageFault.onRefresh).1.segmentos =
          dbW.segmentos ++ segRows ∧
        segRows.length = dataW.segmentos.length) := by
  constructor
  · have h : postResultados usuarioW dbW dataW StorageFault.onCommit =
        ((postResultados usuarioW dbW dataW StorageFault.onCommit).1,
          Except.error ApiError.internalError) := by rfl
    exact (create_resultado_atomico_o_completo usuarioW dbW dataW
      StorageFault.onCommit _ ApiError.internalError h).1 (by decide)
  · have h : postResultados usuarioW dbW dataW StorageFault.onRefresh =
        ((postResultados usuarioW dbW dataW StorageFault.onRefresh).1,
          Except.error ApiError.internalError) := by rfl
    exact (create_resultado_atomico_o_completo usuarioW dbW dataW
      StorageFault.onRefresh _ ApiError.internalError h).2

theorem calcularResumenGlobal_requiere (segs : List SegmentoCreate) (g : Int)
    (dist : Nat) :
    (calcularResumenGlobal segs g dist).requiere_revision = true ↔
      40 < |(segs.map (fun s => s.tiempo_cs)).sum - g| := by
  simp [calcularResumenGlobal]

/-- C1: whenever a create-resultado request succeeds, the computed and
stored deviation equals (sum of submitted segment times) −
tiempo_global_cs in exact integer arithmetic, the stored
estado_validacion is "revisar" exactly when the absolute deviation
exceeds 40 cs, and so an absolute deviation of 40 is stored "valido"
while 41 is stored "revisar"; the stored row is the one returned. -/
theorem create_resultado_desviacion_estado (u : Usuario) (db : DB)
    (data : ResultadoCreate) (fault : StorageFault) (db' : DB)
    (resp : CreateRespuesta)
    (h : postResultados u db data fault = (db', .ok resp)) :
    resp.resumen_global.desviacion_cs =
      (data.segmentos.map (fun s => s.tiempo_cs)).sum - data.tiempo_global_cs ∧
    resp.resultado.desviacion_parciales_cs =
      (data.segmentos.map (fun s => s.tiempo_cs)).sum - data.tiempo_global_cs ∧
    resp.resultado.estado_validacion =
      (if 40 < |(data.segmentos.map (fun s => s.tiempo_cs)).sum - data.tiempo_global_cs|
        then "revisar" else "valido") ∧
    (|(data.segmentos.map (fun s => s.tiempo_cs)).sum - data.tiempo_global_cs| = 40 →
      resp.resultado.estado_validacion = "valido") ∧
    (|(data.segmentos.map (fun s => s.tiempo_cs)).sum - data.tiempo_global_cs| = 41 →
      resp.resultado.estado_validacion = "revisar") ∧
    db'.resultados = db.resultados ++ [resp.resultado] := by
  simp only [postResultados, createResultado] at h
  repeat' split at h
  all_goals injection h with hdb hok
  all_goals try (exact Except.noConfusion hok)
  all_goals injection hok with hresp
  all_goals subst hresp
  all_goals rename_i hreq
  all_goals rw [← hdb]
  all_goals
    first
      | (have hd : 40 <
            |(data.segmentos.map (fun s => s.tiempo_cs)).sum - data.tiempo_global_cs| :=
          (calcularResumenGlobal_requiere _ _ _).mp hreq
         exact ⟨rfl, rfl, (if_pos hd).symm,
           fun he => absurd (he ▸ hd) (lt_irrefl 40),
           fun _ => rfl, rfl⟩)
      | (have hd : ¬ 40 <
            |(data.segmentos.map (fun s => s.tiempo_cs)).sum - data.tiempo_global_cs| :=
          fun hc => hreq ((calcularResumenGlobal_requiere _ _ _).mpr hc)
         exact ⟨rfl, rfl, (if_neg hd).symm, fun _ => rfl,
           fun he => absurd (lt_of_lt_of_eq (by norm_num) he.symm) hd, rfl⟩)

/-- The store and response produced by the successful witness run: the
submission of `dataW` lands one resultado row (deviation 40, estado
"valido", categoria "13-14") and its two segmento rows. -/
def dbExitoW : DB :=
  ⟨[⟨1, 1, ⟨2010, 6, 15⟩⟩], [⟨1, 1, "SC"⟩], [⟨1, 50, "SC", "Libre"⟩],
   [⟨1, 1, 1, 1, "Preliminar", ⟨2024, 6, 15⟩, 3000, none, "13-14", "valido", 40, 7⟩],
   [⟨1, 1, 1, "Libre", 25, 1500, 10, 5⟩, ⟨2, 1, 2, "Libre", 25, 1540, 11, 5⟩]⟩

def respW : CreateRespuesta :=
  ⟨⟨1, 1, 1, 1, "Preliminar", ⟨2024, 6, 15⟩, 3000, none, "13-14", "valido", 40, 7⟩,
   [⟨1, 1, 1, "Libre", 25, 1500, 10, 5⟩, ⟨2, 1, 2, "Libre", 25, 1540, 11, 5⟩],
   calcularResumenGlobal dataW.segmentos dataW.tiempo_global_cs 50⟩

/-- C1 (witness): the concrete run of `dataW` succeeds with segment times
summing to 3040 cs against a global 3000 cs, and the stored row carries
deviation 40 and — the boundary case — estado "valido". -/
theorem create_resultado_desviacion_estado_witness :
    respW.resultado.desviacion_parciales_cs =
      (dataW.segmentos.map (fun s => s.tiempo_cs)).sum - dataW.tiempo_global_cs ∧
    respW.resultado.estado_validacion = "valido" := by
  have h : postResultados usuarioW dbW dataW StorageFault.noFault =
      (dbExitoW, .ok respW) := by rfl
  have hc := create_resultado_desviacion_estado usuarioW dbW dataW
    StorageFault.noFault dbExitoW respW h
  exact ⟨hc.2.1, hc.2.2.2.1 (by decide)⟩

/-- C7: if the six checks before the uniqueness probe pass and a
resultado with the same (nadador, competencia, prueba, fase,
fecha_registro) tuple already exists, the submission is rejected with
HTTP 409 and the store — in particular the pre-existing row and its
segmentos — is returned exactly as it was: no insert happens. -/
theorem duplicado_rechazado_conflict (u : Usuario) (db : DB)
    (data : ResultadoCreate) (fault : StorageFault) (r : Nat × Fecha)
    (hschema : resultadoCreateSchemaValid data = true)
    (hperm : u.permisoConcedido "registrar_resultados" = true)
    (hok : validarSinUnicidad db data u.equipo_id = .ok r)
    (hdup : existeResultadoDuplicado db data = true) :
    postResultados u db data fault = (db, .error .duplicado) ∧
    ApiError.duplicado.httpStatus = 409 := by
  refine ⟨?_, rfl⟩
  simp [postResultados, createResultado, validarDatosResultado, hschema, hperm, hok, hdup]

/-- C7 (witness): resubmitting `dataW` against the store that already
holds the row it created is rejected with a conflict and the store is
untouched. -/
theorem duplicado_rechazado_conflict_witness :
    postResultados usuarioW dbExitoW dataW StorageFault.noFault =
      (dbExitoW, .error .duplicado) :=
  (duplicado_rechazado_conflict usuarioW dbExitoW dataW StorageFault.noFault
    (50, ⟨2024, 6, 15⟩) (by decide) (by decide) (by rfl) (by rfl)).1

theorem validarSegmentoEn_errores (longitud : Nat) (estilo : String) (i : Nat)
    (s : SegmentoCreate) (e : ApiError)
    (h : validarSegmentoEn longitud estilo i s = .error e) :
    e = .segmentoDistanciaInvalida ∨ e = .flechaExcedeDistancia ∨
      e = .estiloImIncorrecto := by
  unfold validarSegmentoEn at h
  repeat' split at h
  all_goals
    first
      | (injection h with he; subst he; simp)
      | exact Except.noConfusion h

theorem validarSegmentosDesde_errores (longitud : Nat) (estilo : String) :
    ∀ (i : Nat) (segs : List SegmentoCreate) (e : ApiError),
      validarSegmentosDesde longitud estilo i segs = .error e →
      e = .segmentoDistanciaInvalida ∨ e = .flechaExcedeDistancia ∨
        e = .estiloImIncorrecto := by
  intro i segs
  induction segs generalizing i with
  | nil => intro e h; exact Except.noConfusion h
  | cons s rest ih =>
    intro e h
    simp only [validarSegmentosDesde] at h
    split at h
    · rename_i e' heq
      injection h with he
      subst he
      exact validarSegmentoEn_errores longitud estilo i s e' heq
    · exact ih (i + 1) e h

theorem checkTiempo15m_errores (data : ResultadoCreate) (d : Nat) (e : ApiError)
    (h : checkTiempo15m data d = .error e) : e = .tiempo15mNotAllowed := by
  unfold checkTiempo15m at h
  split at h
  · injection h with he; exact he.symm
  · exact Except.noConfusion h

theorem calcularCategoriaResultado_errores (db : DB) (nid : Nat) (f : Fecha)
    (e : ApiError) (h : calcularCategoriaResultado db nid f = .error e) :
    e = .internalError := by
  unfold calcularCategoriaResultado at h
  split at h
  · injection h with he; exact he.symm
  · exact Except.noConfusion h

theorem postResultados_count_only_from_validar (u : Usuario) (db : DB)
    (data : ResultadoCreate) (fault : StorageFault)
    (h : (postResultados u db data fault).2 = .error .segmentCountMismatch) :
    validarDatosResultado db data u.equipo_id = .error .segmentCountMismatch := by
  simp only [postResultados, createResultado] at h
  repeat' split at h
  all_goals simp at h
  all_goals rename_i heq
  all_goals rw [h] at heq
  all_goals
    first
      | exact heq
      | (have hx := calcularCategoriaResultado_errores _ _ _ _ heq; simp at hx)

theorem validarDatos_count (db : DB) (data : ResultadoCreate) (equipo : Nat)
    (h : validarDatosResultado db data equipo = .error .segmentCountMismatch) :
    validarSinUnicidad db data equipo = .error .segmentCountMismatch := by
  unfold validarDatosResultado at h
  split at h
  · rename_i e heq
    injection h with he
    rw [he] at heq
    exact heq
  · split at h
    · exact absurd h (by simp)
    · exact Except.noConfusion h

theorem validarSinUnicidad_count (db : DB) (data : ResultadoCreate)
    (equipo : Nat) (c : Competencia) (p : Prueba)
    (href : validarReferencias db data equipo = .ok (c, p))
    (h : validarSinUnicidad db data equipo = .error .segmentCountMismatch) :
    data.segmentos.length ≠ numSegmentosEsperados p.distancia p.curso := by
  intro heq
  unfold validarSinUnicidad validarSegmentacion at h
  rw [href] at h
  simp only [heq] at h
  rw [if_neg (fun hc => hc rfl)] at h
  split at h
  · rename_i e heq2
    injection h with he
    rw [he] at heq2
    rcases validarSegmentosDesde_errores _ _ _ _ _ heq2 with hx | hx | hx <;> simp at hx
  · split at h
    · rename_i e heq2
      injection h with he
      rw [he] at heq2
      have hx := checkTiempo15m_errores _ _ _ heq2
      simp at hx
    · exact Except.noConfusion h

/-- C2: the segment-count check.  The course segment length is 25 for
"SC" and 50 otherwise (in particular 50 for "LC"), and the expected count
is the test distance divided by it; once the referential checks (steps
1-3) have passed, a submission whose segment count differs from the
expected count is rejected with HTTP 400 and the store unchanged, while a
submission with the exact expected count can never produce the
segment-count error. -/
theorem conteo_segmentos_validacion (u : Usuario) (db : DB)
    (data : ResultadoCreate) (fault : StorageFault) (c : Competencia) (p : Prueba)
    (hschema : resultadoCreateSchemaValid data = true)
    (hperm : u.permisoConcedido "registrar_resultados" = true)
    (href : validarReferencias db data u.equipo_id = .ok (c, p)) :
    (longitudSegmento "SC" = 25 ∧ longitudSegmento "LC" = 50 ∧
      numSegmentosEsperados p.distancia p.curso =
        p.distancia / longitudSegmento p.curso) ∧
    (data.segmentos.length ≠ numSegmentosEsperados p.distancia p.curso →
      postResultados u db data fault = (db, .error .segmentCountMismatch) ∧
      ApiError.segmentCountMismatch.httpStatus = 400) ∧
    (data.segmentos.length = numSegmentosEsperados p.distancia p.curso →
      (postResultados u db data fault).2 ≠ .error .segmentCountMismatch) := by
  refine ⟨⟨rfl, rfl, rfl⟩, ?_, ?_⟩
  · intro hne
    refine ⟨?_, rfl⟩
    have hval : validarDatosResultado db data u.equipo_id =
        .error .segmentCountMismatch := by
      simp [validarDatosResultado, validarSinUnicidad, validarSegmentacion, href, hne]
    simp [postResultados, createResultado, hschema, hperm, hval]
  · intro heq hcontra
    exact validarSinUnicidad_count db data u.equipo_id c p href
      (validarDatos_count db data u.equipo_id
        (postResultados_count_only_from_validar u db data fault hcontra)) heq

/-- A submission like `dataW` but with three 25 m segments where the
50 m SC test expects two. -/
def dataMalConteoW : ResultadoCreate :=
  ⟨1, 1, 1, "Preliminar", ⟨2024, 6, 15⟩, 3000, none,
    [⟨1, "Libre", 25, 1000, 10, 5⟩, ⟨2, "Libre", 25, 1000, 10, 5⟩,
     ⟨3, "Libre", 25, 1000, 10, 5⟩]⟩

/-- C2 (witness): the three-segment submission against the 50 m SC test
(which expects 2 = 50 / 25 segments) is rejected with the segment-count
error and the store unchanged. -/
theorem conteo_segmentos_validacion_witness :
    postResultados usuarioW dbW dataMalConteoW StorageFault.noFault =
      (dbW, .error .segmentCountMismatch) :=
  ((conteo_segmentos_validacion usuarioW dbW dataMalConteoW StorageFault.noFault
    ⟨1, 1, "SC"⟩ ⟨1, 50, "SC", "Libre"⟩ (by decide) (by decide) (by rfl)).2.1
    (by decide)).1

/-- C8: once the referential checks and the segmentation checks have
passed, a submission carrying a non-null `tiempo_15m_cs` is rejected with
HTTP 400 (store unchanged) whenever the test distance is not exactly 50,
regardless of the supplied value; when the distance is 50 or the field is
absent, the 15 m check passes. -/
theorem tiempo15m_solo_50m (u : Usuario) (db : DB) (data : ResultadoCreate)
    (fault : StorageFault) (c : Competencia) (p : Prueba) (t : Int)
    (hschema : resultadoCreateSchemaValid data = true)
    (hperm : u.permisoConcedido "registrar_resultados" = true)
    (href : validarReferencias db data u.equipo_id = .ok (c, p))
    (hseg : validarSegmentacion p data.segmentos = .ok ()) :
    (data.tiempo_15m_cs = some t → p.distancia ≠ 50 →
      postResultados u db data fault = (db, .error .tiempo15mNotAllowed) ∧
      ApiError.tiempo15mNotAllowed.httpStatus = 400) ∧
    ((data.tiempo_15m_cs = none ∨ p.distancia = 50) →
      checkTiempo15m data p.distancia = .ok ()) := by
  constructor
  · intro h15 hd
    refine ⟨?_, rfl⟩
    have hval : validarDatosResultado db data u.equipo_id =
        .error .tiempo15mNotAllowed := by
      simp [validarDatosResultado, validarSinUnicidad, checkTiempo15m,
        href, hseg, h15, hd]
    simp [postResultados, createResultado, hschema, hperm, hval]
  · rintro (h15 | hd)
    · simp [checkTiempo15m, h15]
    · simp [checkTiempo15m, hd]

/-- A catalog store that also offers a 100 m Libre SC test and the 400 m
Combinado SC test. -/
def dbCatalogoW : DB :=
  ⟨[⟨1, 1, ⟨2010, 6, 15⟩⟩], [⟨1, 1, "SC"⟩],
   [⟨1, 50, "SC", "Libre"⟩, ⟨2, 100, "SC", "Libre"⟩, ⟨3, 400, "SC", "Combinado"⟩],
   [], []⟩

/-- A 100 m SC submission (four 25 m segments) that wrongly supplies a
15 m split time. -/
def data15mW : ResultadoCreate :=
  ⟨1, 1, 2, "Preliminar", ⟨2024, 6, 15⟩, 6000, some 700,
    [⟨1, "Libre", 25, 1500, 10, 5⟩, ⟨2, "Libre", 25, 1500, 10, 5⟩,
     ⟨3, "Libre", 25, 1500, 10, 5⟩, ⟨4, "Libre", 25, 1500, 10, 5⟩]⟩

/-- C8 (witness): supplying `tiempo_15m_cs = 700` for the 100 m test is
rejected with the 15 m error and the store unchanged, while the 50 m
submission `dataW` (with the field absent) passes the 15 m check. -/
theorem tiempo15m_solo_50m_witness :
    postResultados usuarioW dbCatalogoW data15mW StorageFault.noFault =
      (dbCatalogoW, .error .tiempo15mNotAllowed) ∧
    checkTiempo15m dataW 50 = .ok () :=
  ⟨((tiempo15m_solo_50m usuarioW dbCatalogoW data15mW StorageFault.noFault
      ⟨1, 1, "SC"⟩ ⟨2, 100, "SC", "Libre"⟩ 700
      (by decide) (by decide) (by rfl) (by rfl)).1 (by rfl) (by decide)).1,
   (tiempo15m_solo_50m usuarioW dbW dataW StorageFault.noFault
      ⟨1, 1, "SC"⟩ ⟨1, 50, "SC", "Libre"⟩ 0
      (by decide) (by decide) (by rfl) (by rfl)).2 (Or.inl rfl)⟩

theorem validarSegmentosDesde_combinado_cons (longitud start : Nat)
    (s : SegmentoCreate) (rest : List SegmentoCreate)
    (h1 : s.distancia_m = longitud) (h2 : s.flecha_m ≤ (s.distancia_m : ℚ)) :
    validarSegmentosDesde longitud "Combinado" start (s :: rest) =
      (if s.estilo_segmento ≠ estilosIM.getD ((start - 1) % 4) "" then
        .error .estiloImIncorrecto
      else validarSegmentosDesde longitud "Combinado" (start + 1) rest) := by
  simp only [validarSegmentosDesde, validarSegmentoEn,
    if_neg (by simp [h1] : ¬ s.distancia_m ≠ longitud),
    if_neg (not_lt.mpr h2), if_pos rfl]
  by_cases hcnd : s.estilo_segmento = estilosIM.getD ((start - 1) % 4) ""
  · simp [hcnd]
  · have hcnd2 : ¬ s.estilo_segmento = estilosIM[(start - 1) % 4]?.getD "" := by
      simpa using hcnd
    simp [hcnd2]

theorem validarSegmentosDesde_combinado_ok (longitud : Nat) :
    ∀ (start : Nat) (segs : List SegmentoCreate),
      (∀ s ∈ segs, s.distancia_m = longitud ∧ s.flecha_m ≤ (s.distancia_m : ℚ)) →
      (validarSegmentosDesde longitud "Combinado" start segs = .ok () ↔
        ∀ j (hj : j < segs.length),
          (segs.get ⟨j, hj⟩).estilo_segmento =
            estilosIM.getD ((start + j - 1) % 4) "") := by
  intro start segs
  induction segs generalizing start with
  | nil =>
    intro _
    simp [validarSegmentosDesde]
  | cons s rest ih =>
    intro hW
    have hs := hW s (by simp)
    have hrest : ∀ x ∈ rest,
        x.distancia_m = longitud ∧ x.flecha_m ≤ (x.distancia_m : ℚ) :=
      fun x hx => hW x (by simp [hx])
    rw [validarSegmentosDesde_combinado_cons longitud start s rest hs.1 hs.2]
    by_cases he : s.estilo_segmento = estilosIM.getD ((start - 1) % 4) ""
    · rw [if_neg (fun hc => hc he), ih (start + 1) hrest]
      constructor
      · intro hall j hj
        cases j with
        | zero => simpa using he
        | succ j' =>
          have hj' : j' < rest.length := Nat.lt_of_succ_lt_succ hj
          have hx := hall j' hj'
          simpa [show start + 1 + j' - 1 = start + (j' + 1) - 1 by omega] using hx
      · intro hall j hj
        have hx := hall (j + 1) (Nat.succ_lt_succ hj)
        simpa [show start + (j + 1) - 1 = start + 1 + j - 1 by omega] using hx
    · rw [if_pos he]
      constructor
      · intro hc; exact Except.noConfusion hc
      · intro hall
        exact absurd (by simpa using hall 0 (by simp)) he

theorem validarSegmentosDesde_combinado_cases (longitud : Nat) :
    ∀ (start : Nat) (segs : List SegmentoCreate),
      (∀ s ∈ segs, s.distancia_m = longitud ∧ s.flecha_m ≤ (s.distancia_m : ℚ)) →
      validarSegmentosDesde longitud "Combinado" start segs = .ok () ∨
      validarSegmentosDesde longitud "Combinado" start segs =
        .error .estiloImIncorrecto := by
  intro start segs
  induction segs generalizing start with
  | nil => intro _; left; rfl
  | cons s rest ih =>
    intro hW
    have hs := hW s (by simp)
    have hrest : ∀ x ∈ rest,
        x.distancia_m = longitud ∧ x.flecha_m ≤ (x.distancia_m : ℚ) :=
      fun x hx => hW x (by simp [hx])
    rw [validarSegmentosDesde_combinado_cons longitud start s rest hs.1 hs.2]
    by_cases he : s.estilo_segmento ≠ estilosIM.getD ((start - 1) % 4) ""
    · right; rw [if_pos he]
    · rw [if_neg he]; exact ih (start + 1) hrest

/-- C3: for a Combinado test whose referential checks, count check and
per-segment distance/streamline checks pass, the segmentation validation
succeeds exactly when the segment at (0-based) position j carries the
style `estilos_im[j % 4]` — the Mariposa, Dorso, Pecho, Libre rotation by
position — and a submission in which any single segment deviates from the
rotation is rejected with HTTP 400 and the store unchanged. -/
theorem combinado_rotacion_estilos (u : Usuario) (db : DB)
    (data : ResultadoCreate) (fault : StorageFault) (c : Competencia) (p : Prueba)
    (hschema : resultadoCreateSchemaValid data = true)
    (hperm : u.permisoConcedido "registrar_resultados" = true)
    (href : validarReferencias db data u.equipo_id = .ok (c, p))
    (hcombi : p.estilo = "Combinado")
    (hcount : data.segmentos.length = numSegmentosEsperados p.distancia p.curso)
    (hbien : ∀ s ∈ data.segmentos,
      s.distancia_m = longitudSegmento p.curso ∧
        s.flecha_m ≤ (s.distancia_m : ℚ)) :
    (validarSegmentacion p data.segmentos = .ok () ↔
      ∀ j (hj : j < data.segmentos.length),
        (data.segmentos.get ⟨j, hj⟩).estilo_segmento =
          estilosIM.getD (j % 4) "") ∧
    ((∃ j, ∃ hj : j < data.segmentos.length,
        (data.segmentos.get ⟨j, hj⟩).estilo_segmento ≠
          estilosIM.getD (j % 4) "") →
      postResultados u db data fault = (db, .error .estiloImIncorrecto) ∧
      ApiError.estiloImIncorrecto.httpStatus = 400) := by
  have hseg : validarSegmentacion p data.segmentos =
      validarSegmentosDesde (longitudSegmento p.curso) "Combinado" 1
        data.segmentos := by
    unfold validarSegmentacion
    rw [if_neg (fun hc => hc hcount), hcombi]
  have hiff := validarSegmentosDesde_combinado_ok (longitudSegmento p.curso) 1
    data.segmentos hbien
  have hiff' : validarSegmentacion p data.segmentos = .ok () ↔
      ∀ j (hj : j < data.segmentos.length),
        (data.segmentos.get ⟨j, hj⟩).estilo_segmento =
          estilosIM.getD (j % 4) "" := by
    rw [hseg, hiff]
    constructor
    · intro hall j hj
      have hx := hall j hj
      simpa [show 1 + j - 1 = j by omega] using hx
    · intro hall j hj
      have hx := hall j hj
      simpa [show 1 + j - 1 = j by omega] using hx
  refine ⟨hiff', ?_⟩
  rintro ⟨j, hj, hne⟩
  have hnotok : validarSegmentacion p data.segmentos ≠ .ok () := by
    intro hc
    exact hne (hiff'.mp hc j hj)
  have herr : validarSegmentacion p data.segmentos =
      .error .estiloImIncorrecto := by
    rcases validarSegmentosDesde_combinado_cases (longitudSegmento p.curso) 1
      data.segmentos hbien with hx | hx
    · exact absurd (hseg.trans hx) hnotok
    · exact hseg.trans hx
  refine ⟨?_, rfl⟩
  have hval : validarDatosResultado db data u.equipo_id =
      .error .estiloImIncorrecto := by
    simp [validarDatosResultado, validarSinUnicidad, href, herr]
  simp [postResultados, createResultado, hschema, hperm, hval]

/-- A 400 m Combinado SC submission: sixteen 25 m segments cycling
Mariposa, Dorso, Pecho, Libre four times. -/
def dataCombinadoOkW : ResultadoCreate :=
  ⟨1, 1, 3, "Preliminar", ⟨2024, 6, 15⟩, 24000, none,
    [⟨1, "Mariposa", 25, 1500, 8, 5⟩, ⟨2, "Dorso", 25, 1500, 8, 5⟩,
     ⟨3, "Pecho", 25, 1500, 8, 5⟩, ⟨4, "Libre", 25, 1500, 8, 5⟩,
     ⟨5, "Mariposa", 25, 1500, 8, 5⟩, ⟨6, "Dorso", 25, 1500, 8, 5⟩,
     ⟨7, "Pecho", 25, 1500, 8, 5⟩, ⟨8, "Libre", 25, 1500, 8, 5⟩,
     ⟨9, "Mariposa", 25, 1500, 8, 5⟩, ⟨10, "Dorso", 25, 1500, 8, 5⟩,
     ⟨11, "Pecho", 25, 1500, 8, 5⟩, ⟨12, "Libre", 25, 1500, 8, 5⟩,
     ⟨13, "Mariposa", 25, 1500, 8, 5⟩, ⟨14, "Dorso", 25, 1500, 8, 5⟩,
     ⟨15, "Pecho", 25, 1500, 8, 5⟩, ⟨16, "Libre", 25, 1500, 8, 5⟩]⟩

/-- The same submission with a single deviation: position 5 (0-based
index 4) carries "Libre" where the rotation demands "Mariposa". -/
def dataCombinadoMalW : ResultadoCreate :=
  ⟨1, 1, 3, "Preliminar", ⟨2024, 6, 15⟩, 24000, none,
    [⟨1, "Mariposa", 25, 1500, 8, 5⟩, ⟨2, "Dorso", 25, 1500, 8, 5⟩,
     ⟨3, "Pecho", 25, 1500, 8, 5⟩, ⟨4, "Libre", 25, 1500, 8, 5⟩,
     ⟨5, "Libre", 25, 1500, 8, 5⟩, ⟨6, "Dorso", 25, 1500, 8, 5⟩,
     ⟨7, "Pecho", 25, 1500, 8, 5⟩, ⟨8, "Libre", 25, 1500, 8, 5⟩,
     ⟨9, "Mariposa", 25, 1500, 8, 5⟩, ⟨10, "Dorso", 25, 1500, 8, 5⟩,
     ⟨11, "Pecho", 25, 1500, 8, 5⟩, ⟨12, "Libre", 25, 1500, 8, 5⟩,
     ⟨13, "Mariposa", 25, 1500, 8, 5⟩, ⟨14, "Dorso", 25, 1500, 8, 5⟩,
     ⟨15, "Pecho", 25, 1500, 8, 5⟩, ⟨16, "Libre", 25, 1500, 8, 5⟩]⟩

/-- C3 (witness): against the 400 m Combinado SC test (16 = 400 / 25
segments), the correctly cycling submission passes the segmentation
check while the single-deviation submission is rejected with the
medley-style error and the store unchanged. -/
theorem combinado_rotacion_estilos_witness :
    validarSegmentacion ⟨3, 400, "SC", "Combinado"⟩ dataCombinadoOkW.segmentos =
      .ok () ∧
    postResultados usuarioW dbCatalogoW dataCombinadoMalW StorageFault.noFault =
      (dbCatalogoW, .error .estiloImIncorrecto) :=
  ⟨(combinado_rotacion_estilos usuarioW dbCatalogoW dataCombinadoOkW
      StorageFault.noFault ⟨1, 1, "SC"⟩ ⟨3, 400, "SC", "Combinado"⟩
      (by decide) (by decide) (by rfl) (by rfl) (by decide)
      (by decide)).1.mpr (by decide),
   ((combinado_rotacion_estilos usuarioW dbCatalogoW dataCombinadoMalW
      StorageFault.noFault ⟨1, 1, "SC"⟩ ⟨3, 400, "SC", "Combinado"⟩
      (by decide) (by decide) (by rfl) (by rfl) (by decide)
      (by decide)).2 ⟨4, by decide, by decide⟩).1⟩

theorem indicesConsecutivos_map (l : List SegmentoCreate) :
    ∀ k, indicesConsecutivosDesde k l = true →
      l.map (fun s => s.indice) = List.range' k l.length := by
  induction l with
  | nil => intro k _; rfl
  | cons s rest ih =>
    intro k h
    simp only [indicesConsecutivosDesde, Bool.and_eq_true, beq_iff_eq] at h
    obtain ⟨h1, h2⟩ := h
    simp only [List.map_cons, List.length_cons, List.range'_succ]
    rw [h1, ih (k + 1) h2]

/-- C10: any submission accepted by the request-body validator has
segment indices that are a permutation of (1, …, N) — no gaps, no
duplicates — where, once the endpoint's count check passes, N is the
expected segment count of the test. -/
theorem indices_exactamente_uno_a_n (data : ResultadoCreate) (p : Prueba)
    (hschema : resultadoCreateSchemaValid data = true)
    (hcount : data.segmentos.length = numSegmentosEsperados p.distancia p.curso) :
    (data.segmentos.map (fun s => s.indice)).Perm
      (List.range' 1 (numSegmentosEsperados p.distancia p.curso)) := by
  have hv : validateSegmentosSchema data.segmentos = true := by
    simp only [resultadoCreateSchemaValid, Bool.and_eq_true] at hschema
    exact hschema.2
  simp only [validateSegmentosSchema, Bool.and_eq_true] at hv
  have hcons := hv.2
  have hperm0 : (List.insertionSort
      (fun a b => a.indice ≤ b.indice) data.segmentos).Perm data.segmentos :=
    List.perm_insertionSort _ _
  have hmap := indicesConsecutivos_map
    (List.insertionSort (fun a b => a.indice ≤ b.indice) data.segmentos) 1 hcons
  have hx := (hperm0.map (fun s => s.indice)).symm
  rw [hmap, hperm0.length_eq, hcount] at hx
  exact hx

/-- C10 (witness): the two-segment submission `dataW` passes the schema,
matches the expected count 2 = 50 / 25 of the 50 m SC test, and its
indices are exactly a permutation of (1, 2). -/
theorem indices_exactamente_uno_a_n_witness :
    (dataW.segmentos.map (fun s => s.indice)).Perm (List.range' 1 2) :=
  indices_exactamente_uno_a_n dataW ⟨1, 50, "SC", "Libre"⟩ (by decide) (by decide)

end Aqualytics
